import Mathlib

/-!
Shallow embedding of the Gamebackend player-record service
(src/server.js, src/models/playerModel.js, src/Unity/GameUIManager.cs)
and proofs of the specification claims about it.
-/

namespace GameBackend

/-- JSON-like values appearing in response data objects. -/
inductive JVal where
  | s (v : String)
  | n (v : Int)
  | t (v : Nat)
  | nullv
deriving DecidableEq, Repr

/-- The server-side player record.  The mongoose schema itself is not under
src/; its field set and defaults are modelled from the spec: §3 DATA MODEL
(`level, experience, score` default `1, 0, 0`; `wins`/`losses` non-negative
counters starting at 0; `lastLoginAt` updated on successful login).  The field
names follow the handlers in src/server.js, which read and write exactly
these fields. -/
structure Player where
  id : String
  username : String
  password : String
  email : String
  level : Int
  experience : Int
  score : Int
  wins : Int
  losses : Int
  lastLoginAt : Option Nat
deriving DecidableEq, Repr

/-- A store state: the collection of player records in insertion order
(src/models/playerModel.js keeps an array; the document store is addressed
by `findOne`/`findById`/`create` in src/server.js). -/
abbrev Store := List Player

/-- Model of the external bcrypt library used by src/server.js:
`bcrypt.hash` is modelled as an injective tagging function. -/
def bhash (plain : String) : String := "bcrypt$" ++ plain

/-- Model of `bcrypt.compare(plain, stored)`: true exactly when `stored`
is the hash of `plain`. -/
def bverify (plain stored : String) : Bool := stored == bhash plain

/-- JavaScript truthiness of an optional string field (`!x` is true when the
field is `undefined` or the empty string). -/
def truthy : Option String → Bool
  | none => false
  | some s => !s.isEmpty

/-- Response shape `{success, data?}` with the HTTP status code; the
free-text `message` is not modelled. -/
structure HttpResp where
  status : Nat
  success : Bool
  data : Option (List (String × JVal))
deriving DecidableEq, Repr

/-- The `data` object literal of the register handler (src/server.js lines
48-61). -/
def registerData (p : Player) : List (String × JVal) :=
  [("id", JVal.s p.id), ("username", JVal.s p.username),
   ("email", JVal.s p.email), ("level", JVal.n p.level),
   ("experience", JVal.n p.experience), ("score", JVal.n p.score),
   ("wins", JVal.n p.wins), ("losses", JVal.n p.losses)]

/-- Serialization of the optional `lastLoginAt` timestamp. -/
def jtime : Option Nat → JVal
  | none => JVal.nullv
  | some v => JVal.t v

/-- The `data` object literal of the login handler (src/server.js lines
88-102): register's fields plus `lastLoginAt`. -/
def loginData (p : Player) : List (String × JVal) :=
  registerData p ++ [("lastLoginAt", jtime p.lastLoginAt)]

/-- The `data` object literal of the authenticated fetch handlers
(src/server.js lines 133-147 and 171-185): same field list as login. -/
def fetchData (p : Player) : List (String × JVal) :=
  registerData p ++ [("lastLoginAt", jtime p.lastLoginAt)]

/-- The `data` object literal of the update handler (src/server.js lines
220-233): same field list as register. -/
def updateData (p : Player) : List (String × JVal) :=
  registerData p

/-- One leaderboard entry `{username, score}` (src/server.js line 373). -/
def leaderboardEntry (p : Player) : List (String × JVal) :=
  [("username", JVal.s p.username), ("score", JVal.n p.score)]

/-- One admin-listing entry (src/server.js lines 320-328). -/
def adminEntry (p : Player) : List (String × JVal) :=
  [("id", JVal.s p.id), ("username", JVal.s p.username),
   ("level", JVal.n p.level), ("experience", JVal.n p.experience),
   ("score", JVal.n p.score), ("wins", JVal.n p.wins),
   ("losses", JVal.n p.losses)]

/-- `player.save()` after mutating a fetched document: replace the record
with the matching id. -/
def storeReplace (st : Store) (p2 : Player) : Store :=
  st.map (fun q => if q.id == p2.id then p2 else q)

/-- `id ? Player.findById(id) : Player.findOne({username})` — JS truthiness
decides which lookup runs (src/server.js lines 125, 163, 202, 272, 390). -/
def findTarget (st : Store) (id username : Option String) : Option Player :=
  if truthy id then st.find? (fun p => p.id == id.getD "")
  else st.find? (fun p => p.username == username.getD "")

/-- POST /api/player/register (src/server.js lines 32-65): validate, reject a
duplicate username with 409, otherwise hash the password and create the
record.  `freshId` stands for the identifier the store assigns. -/
def register (st : Store) (username password email : Option String)
    (freshId : String) : HttpResp × Store :=
  if !(truthy username) || !(truthy password) then (⟨400, false, none⟩, st)
  else
    match st.find? (fun p => p.username == username.getD "") with
    | some _ => (⟨409, false, none⟩, st)
    | none =>
      let p : Player :=
        { id := freshId, username := username.getD "",
          password := bhash (password.getD ""), email := email.getD "",
          level := 1, experience := 0, score := 0, wins := 0, losses := 0,
          lastLoginAt := none }
      (⟨201, true, some (registerData p)⟩, st ++ [p])

/-- POST /api/player/login (src/server.js lines 68-106): 401 both when the
username is absent from the store and when the password does not verify;
on success set `lastLoginAt` and save. -/
def login (st : Store) (username password : Option String) (now : Nat) :
    HttpResp × Store :=
  if !(truthy username) || !(truthy password) then (⟨400, false, none⟩, st)
  else
    match st.find? (fun p => p.username == username.getD "") with
    | none => (⟨401, false, none⟩, st)
    | some p =>
      if !(bverify (password.getD "") p.password) then (⟨401, false, none⟩, st)
      else
        let p2 := { p with lastLoginAt := some now }
        (⟨200, true, some (loginData p2)⟩, storeReplace st p2)

/-- GET /api/player (src/server.js lines 111-151): authenticated fetch;
404 when the target record does not exist, 401 when the password does not
verify. -/
def fetchPlayer (st : Store) (id username password : Option String) :
    HttpResp :=
  if !(truthy id) && !(truthy username) then ⟨400, false, none⟩
  else if !(truthy password) then ⟨401, false, none⟩
  else
    match findTarget st id username with
    | none => ⟨404, false, none⟩
    | some p =>
      if !(bverify (password.getD "") p.password) then ⟨401, false, none⟩
      else ⟨200, true, some (fetchData p)⟩

/-- The body of PUT /api/player (src/server.js line 195). -/
structure UpdateReq where
  id : Option String := none
  username : Option String := none
  currentPassword : Option String := none
  level : Option Int := none
  experience : Option Int := none
  email : Option String := none
  score : Option Int := none
  wins : Option Int := none
  losses : Option Int := none
  password : Option String := none
deriving Repr

/-- Field application of the update handler (src/server.js lines 210-218),
in source order: each field guarded by `!== undefined` (present even as an
empty string counts), except the new password which is guarded by JS
truthiness (`if (password)`) and passed through bcrypt. -/
def applyUpdates (p : Player) (r : UpdateReq) : Player :=
  let p1 := match r.level with | some v => { p with level := v } | none => p
  let p2 := match r.experience with
            | some v => { p1 with experience := v } | none => p1
  let p3 := match r.email with | some v => { p2 with email := v } | none => p2
  let p4 := match r.score with | some v => { p3 with score := v } | none => p3
  let p5 := match r.wins with | some v => { p4 with wins := v } | none => p4
  let p6 := match r.losses with
            | some v => { p5 with losses := v } | none => p5
  if truthy r.password then { p6 with password := bhash (r.password.getD "") }
  else p6

/-- PUT /api/player (src/server.js lines 193-237): authenticated partial
update; 404 when the target record does not exist, 401 when the current
password does not verify, otherwise apply the present fields and save. -/
def updatePlayer (st : Store) (r : UpdateReq) : HttpResp × Store :=
  if !(truthy r.id) && !(truthy r.username) then (⟨400, false, none⟩, st)
  else if !(truthy r.currentPassword) then (⟨401, false, none⟩, st)
  else
    match findTarget st r.id r.username with
    | none => (⟨404, false, none⟩, st)
    | some p =>
      if !(bverify (r.currentPassword.getD "") p.password) then
        (⟨401, false, none⟩, st)
      else
        let p2 := applyUpdates p r
        (⟨200, true, some (updateData p2)⟩, storeReplace st p2)

/-- DELETE /api/player (src/server.js lines 381-403, likewise 263-285):
authenticated delete; 404 when the target record does not exist, 401 when
the password does not verify, otherwise remove the record. -/
def deletePlayer (st : Store) (id username password : Option String) :
    HttpResp × Store :=
  if !(truthy id) && !(truthy username) then (⟨400, false, none⟩, st)
  else if !(truthy password) then (⟨401, false, none⟩, st)
  else
    match findTarget st id username with
    | none => (⟨404, false, none⟩, st)
    | some p =>
      if !(bverify (password.getD "") p.password) then (⟨401, false, none⟩, st)
      else (⟨200, true, none⟩, st.filter (fun q => !(q.id == p.id)))

/-- The limit computation of GET /api/leaderboard (src/server.js lines
370-371): `Number.isFinite(limitRaw) && limitRaw > 0 ? Math.min(limitRaw, 50)
: 10`.  `none` stands for a missing or non-numeric query value, on which
`parseInt` yields NaN. -/
def effLimit (limitRaw : Option Int) : Int :=
  match limitRaw with
  | some v => if 0 < v then min v 50 else 10
  | none => 10

/-- Stable descending insertion by score: an incoming record goes after every
already-placed record with a score at least as large, so records with equal
scores keep their relative order. -/
def insertDesc (p : Player) : List Player → List Player
  | [] => [p]
  | q :: qs => if q.score ≤ p.score then p :: q :: qs else q :: insertDesc p qs

/-- `.sort({score: -1})` of the leaderboard handler, modelled as a stable
descending sort over the store in insertion order. -/
def sortByScoreDesc : List Player → List Player
  | [] => []
  | p :: ps => insertDesc p (sortByScoreDesc ps)

/-- The leaderboard response data (src/server.js lines 372-373): top records
by score, truncated to the effective limit, projected to
`{username, score}`. -/
def leaderboardData (st : Store) (limitRaw : Option Int) :
    List (List (String × JVal)) :=
  ((sortByScoreDesc st).take (effLimit limitRaw).toNat).map leaderboardEntry

/-- GET /api/leaderboard (src/server.js lines 368-378): always a 200 with
the projected data. -/
def leaderboard (st : Store) (limitRaw : Option Int) :
    Nat × List (List (String × JVal)) :=
  (200, leaderboardData st limitRaw)

/-- The admin listing data (src/server.js lines 319-328): every record,
projected. -/
def adminListData (st : Store) : List (List (String × JVal)) :=
  st.map adminEntry

/-! ## Client side (src/Unity/GameUIManager.cs) -/

/-- The client's local `PlayerData` record (GameUIManager.cs lines 15-25),
serialized by `JsonUtility.ToJson` to a per-user JSON file. -/
structure PlayerData where
  username : String
  password : String
  email : String
  score : Int
  wins : Int
  losses : Int
  creationDate : String
  lastLoggedIn : String
deriving DecidableEq, Repr

/-- The field names `JsonUtility` persists for `PlayerData` — its public
fields in declaration order (GameUIManager.cs lines 15-25). -/
def playerDataJsonKeys : List String :=
  ["username", "password", "email", "score", "wins", "losses",
   "creationDate", "lastLoggedIn"]

/-- The field names of the server-side canonical record as read and written
by the handlers in src/server.js. -/
def serverRecordKeys : List String :=
  ["id", "username", "password", "email", "level", "experience", "score",
   "wins", "losses", "lastLoginAt"]

/-- The local fallback record written on a successful registration
(GameUIManager.RegisterAccount, lines 272-295): the `password` field is the
plaintext the user typed, stored as-is in the JSON file. -/
def clientLocalRecord (user pass email nowIso : String) : PlayerData :=
  { username := user, password := pass, email := email, score := 0,
    wins := 0, losses := 0, creationDate := nowIso, lastLoggedIn := nowIso }

/-- GameUIManager.UpdatePlayerStats (lines 735-762): a win adds one to score
and wins; a loss adds one to losses and lowers score by one, floored at
zero via `Mathf.Max(0, score - 1)`. -/
def updatePlayerStats (won : Bool) (c : PlayerData) : PlayerData :=
  if won then { c with score := c.score + 1, wins := c.wins + 1 }
  else { c with losses := c.losses + 1, score := max 0 (c.score - 1) }

/-- A sequence of game-outcome reports applied in order. -/
def applyReports (c : PlayerData) : List Bool → PlayerData
  | [] => c
  | won :: rest => applyReports (updatePlayerStats won c) rest

/-- GameUIManager.ComputeWinRate (lines 889-895): 0 when no games were
played, otherwise `100 * wins / (wins + losses)`, over exact rationals. -/
def ComputeWinRate (pd : PlayerData) : ℚ :=
  let total : Int := pd.wins + pd.losses
  if total = 0 then 0 else 100 * ((pd.wins : ℚ) / (total : ℚ))

/-! ## Concrete fixtures used by counterexamples and witnesses -/

/-- A registered player: handle `alice`, credential `pw1` stored hashed. -/
def alice : Player :=
  { id := "1", username := "alice", password := bhash "pw1",
    email := "a@x.com", level := 1, experience := 0, score := 0, wins := 0,
    losses := 0, lastLoginAt := none }

/-- A one-player store. -/
def st1 : Store := [alice]

/-- An authorized update request against `st1` carrying a negative score. -/
def negReq : UpdateReq :=
  { id := some "1", currentPassword := some "pw1", score := some (-5) }

/-- An authorized update request against `st1` with an empty field set. -/
def emptyReq : UpdateReq :=
  { username := some "alice", currentPassword := some "pw1" }

/-- An authorized update request against `st1` whose new-password and email
fields are both present as the empty string. -/
def emptyPwReq : UpdateReq :=
  { username := some "alice", currentPassword := some "pw1",
    password := some "", email := some "" }

/-! ## Helper lemmas -/

/-- The modelled hash never equals its input: the verifiable form is not
the plaintext. -/
lemma bhash_ne (s : String) : bhash s ≠ s := by
  intro h
  have hlen := congrArg String.length h
  rw [bhash, String.length_append] at hlen
  have h7 : ("bcrypt$" : String).length = 7 := rfl
  omega

lemma string_isEmpty_false {s : String} (h : s ≠ "") : s.isEmpty = false := by
  rw [Bool.eq_false_iff]
  intro hh
  exact h ((String.isEmpty_iff s).mp hh)

lemma truthy_some {s : String} (h : s ≠ "") : truthy (some s) = true := by
  simp [truthy, string_isEmpty_false h]

lemma truthy_none : truthy none = false := rfl

lemma applyUpdates_level (p : Player) (r : UpdateReq) :
    (applyUpdates p r).level = r.level.getD p.level := by
  rcases r with ⟨i, u, c, lv, ex, em, sc, wi, lo, pw⟩
  cases lv <;> cases ex <;> cases em <;> cases sc <;> cases wi <;> cases lo <;>
    simp [applyUpdates] <;> split <;> rfl

lemma applyUpdates_experience (p : Player) (r : UpdateReq) :
    (applyUpdates p r).experience = r.experience.getD p.experience := by
  rcases r with ⟨i, u, c, lv, ex, em, sc, wi, lo, pw⟩
  cases lv <;> cases ex <;> cases em <;> cases sc <;> cases wi <;> cases lo <;>
    simp [applyUpdates] <;> split <;> rfl

lemma applyUpdates_email (p : Player) (r : UpdateReq) :
    (applyUpdates p r).email = r.email.getD p.email := by
  rcases r with ⟨i, u, c, lv, ex, em, sc, wi, lo, pw⟩
  cases lv <;> cases ex <;> cases em <;> cases sc <;> cases wi <;> cases lo <;>
    simp [applyUpdates] <;> split <;> rfl

lemma applyUpdates_score (p : Player) (r : UpdateReq) :
    (applyUpdates p r).score = r.score.getD p.score := by
  rcases r with ⟨i, u, c, lv, ex, em, sc, wi, lo, pw⟩
  cases lv <;> cases ex <;> cases em <;> cases sc <;> cases wi <;> cases lo <;>
    simp [applyUpdates] <;> split <;> rfl

lemma applyUpdates_wins (p : Player) (r : UpdateReq) :
    (applyUpdates p r).wins = r.wins.getD p.wins := by
  rcases r with ⟨i, u, c, lv, ex, em, sc, wi, lo, pw⟩
  cases lv <;> cases ex <;> cases em <;> cases sc <;> cases wi <;> cases lo <;>
    simp [applyUpdates] <;> split <;> rfl

lemma applyUpdates_losses (p : Player) (r : UpdateReq) :
    (applyUpdates p r).losses = r.losses.getD p.losses := by
  rcases r with ⟨i, u, c, lv, ex, em, sc, wi, lo, pw⟩
  cases lv <;> cases ex <;> cases em <;> cases sc <;> cases wi <;> cases lo <;>
    simp [applyUpdates] <;> split <;> rfl

lemma applyUpdates_password (p : Player) (r : UpdateReq) :
    (applyUpdates p r).password =
      if truthy r.password then bhash (r.password.getD "") else p.password := by
  rcases r with ⟨i, u, c, lv, ex, em, sc, wi, lo, pw⟩
  cases lv <;> cases ex <;> cases em <;> cases sc <;> cases wi <;> cases lo <;>
    simp [applyUpdates] <;> split <;> rfl

lemma mem_insertDesc {p x : Player} {l : List Player}
    (hx : x ∈ insertDesc p l) : x = p ∨ x ∈ l := by
  induction l with
  | nil => simpa [insertDesc] using hx
  | cons q qs ih =>
    rw [insertDesc] at hx
    by_cases hq : q.score ≤ p.score
    · simp [hq] at hx
      rcases hx with h | h | h
      · exact Or.inl h
      · exact Or.inr (by simp [h])
      · exact Or.inr (by simp [h])
    · simp [hq] at hx
      rcases hx with h | h
      · exact Or.inr (by simp [h])
      · rcases ih h with h2 | h2
        · exact Or.inl h2
        · exact Or.inr (by simp [h2])

lemma insertDesc_sorted (p : Player) (l : List Player)
    (h : l.Pairwise (fun a b => b.score ≤ a.score)) :
    (insertDesc p l).Pairwise (fun a b => b.score ≤ a.score) := by
  induction l with
  | nil => simp [insertDesc]
  | cons q qs ih =>
    rw [List.pairwise_cons] at h
    obtain ⟨hq, hqs⟩ := h
    rw [insertDesc]
    by_cases hcmp : q.score ≤ p.score
    · simp only [hcmp, if_true]
      refine List.Pairwise.cons ?_ (List.Pairwise.cons hq hqs)
      intro b hb
      rcases List.mem_cons.mp hb with h1 | h1
      · subst h1; exact hcmp
      · exact le_trans (hq b h1) hcmp
    · simp only [hcmp, if_false]
      refine List.Pairwise.cons ?_ (ih hqs)
      intro b hb
      rcases mem_insertDesc hb with h1 | h1
      · subst h1; omega
      · exact hq b h1

lemma sortByScoreDesc_sorted (l : List Player) :
    (sortByScoreDesc l).Pairwise (fun a b => b.score ≤ a.score) := by
  induction l with
  | nil => simp [sortByScoreDesc]
  | cons p ps ih => exact insertDesc_sorted p (sortByScoreDesc ps) ih

lemma filter_insertDesc (p : Player) (s : Int) (l : List Player) :
    (insertDesc p l).filter (fun q => q.score == s) =
      (if p.score = s then [p] else []) ++
        l.filter (fun q => q.score == s) := by
  induction l with
  | nil =>
    by_cases hp : p.score = s <;>
      simp [insertDesc, List.filter_cons, beq_iff_eq, hp]
  | cons q qs ih =>
    rw [insertDesc]
    by_cases hcmp : q.score ≤ p.score
    · simp only [hcmp, if_true]
      by_cases hp : p.score = s <;>
        simp [List.filter_cons, beq_iff_eq, hp]
    · simp only [hcmp, if_false]
      rw [List.filter_cons, List.filter_cons, ih]
      by_cases hq : q.score = s
      · have hp : ¬ p.score = s := by omega
        simp [beq_iff_eq, hq, hp]
      · simp [beq_iff_eq, hq]

/-- Stability of the leaderboard sort: for every score value, the records
holding that score appear in the sorted output in their store (insertion)
order. -/
lemma filter_sortByScoreDesc (s : Int) (l : List Player) :
    (sortByScoreDesc l).filter (fun q => q.score == s) =
      l.filter (fun q => q.score == s) := by
  induction l with
  | nil => rfl
  | cons p ps ih =>
    rw [sortByScoreDesc, filter_insertDesc, ih, List.filter_cons]
    by_cases hp : p.score = s <;> simp [beq_iff_eq, hp]

lemma applyUpdates_empty (p : Player) (r : UpdateReq)
    (h1 : r.level = none) (h2 : r.experience = none) (h3 : r.email = none)
    (h4 : r.score = none) (h5 : r.wins = none) (h6 : r.losses = none)
    (h7 : r.password = none) : applyUpdates p r = p := by
  rcases r with ⟨i, u, c, lv, ex, em, sc, wi, lo, pw⟩
  simp only at h1 h2 h3 h4 h5 h6 h7
  subst h1 h2 h3 h4 h5 h6 h7
  rfl

lemma updatePlayerStats_nonneg (won : Bool) (c : PlayerData)
    (h : 0 ≤ c.score) : 0 ≤ (updatePlayerStats won c).score := by
  cases won
  · simp [updatePlayerStats]
  · simp [updatePlayerStats]; omega

lemma applyReports_nonneg (rs : List Bool) :
    ∀ c : PlayerData, 0 ≤ c.score → 0 ≤ (applyReports c rs).score := by
  induction rs with
  | nil => intro c h; exact h
  | cons w ws ih => intro c h; exact ih _ (updatePlayerStats_nonneg w c h)

/-! ## The claims -/

/-- C1, counterexample: the claim says fetch (like login, update, delete)
yields the same failure kind for a nonexistent handle as for a wrong
credential; on the store `st1` (holding only `alice`), fetching the
nonexistent handle `bob` yields 404 while fetching `alice` with a wrong
password yields 401 — distinguishable kinds. -/
theorem C1_counterexample :
    (fetchPlayer st1 none (some "bob") (some "pw1")).status = 404 ∧
    (fetchPlayer st1 none (some "alice") (some "wrong")).status = 401 ∧
    (404 : Nat) ≠ 401 := by decide

/-- C1, amended: `login` returns the same failure kind (401) whether the
handle is absent or the credential is wrong; `fetch`, `update` and `delete`
instead return 404 when the target record does not exist and 401 when the
credential is wrong, so those three operations do let a caller distinguish a
nonexistent handle from a wrong credential. -/
theorem C1_amended_failure_kinds (st : Store) (u pw : String) (now : Nat)
    (hu : u ≠ "") (hp : pw ≠ "") :
    ((st.find? (fun q => q.username == u) = none →
        (login st (some u) (some pw) now).1.status = 401) ∧
     (∀ p, st.find? (fun q => q.username == u) = some p →
        bverify pw p.password = false →
        (login st (some u) (some pw) now).1.status = 401)) ∧
    ((st.find? (fun q => q.username == u) = none →
        (fetchPlayer st none (some u) (some pw)).status = 404) ∧
     (∀ p, st.find? (fun q => q.username == u) = some p →
        bverify pw p.password = false →
        (fetchPlayer st none (some u) (some pw)).status = 401)) ∧
    ((st.find? (fun q => q.username == u) = none →
        (updatePlayer st
          { username := some u, currentPassword := some pw }).1.status = 404) ∧
     (∀ p, st.find? (fun q => q.username == u) = some p →
        bverify pw p.password = false →
        (updatePlayer st
          { username := some u, currentPassword := some pw }).1.status = 401)) ∧
    ((st.find? (fun q => q.username == u) = none →
        (deletePlayer st none (some u) (some pw)).1.status = 404) ∧
     (∀ p, st.find? (fun q => q.username == u) = some p →
        bverify pw p.password = false →
        (deletePlayer st none (some u) (some pw)).1.status = 401)) := by
  have hu' := truthy_some hu
  have hp' := truthy_some hp
  have hu2 := string_isEmpty_false hu
  have hp2 := string_isEmpty_false hp
  refine ⟨⟨?_, ?_⟩, ⟨?_, ?_⟩, ⟨?_, ?_⟩, ⟨?_, ?_⟩⟩
  · intro h; rw [login]; simp [hu', hp', h]
  · intro p h hv; rw [login]; simp [hu', hp', h, hv]
  · intro h; rw [fetchPlayer]; simp [hu', hp', hu2, hp2, findTarget, truthy, h]
  · intro p h hv
    rw [fetchPlayer]; simp [hu', hp', hu2, hp2, findTarget, truthy, h, hv]
  · intro h; rw [updatePlayer]; simp [hu', hp', hu2, hp2, findTarget, truthy, h]
  · intro p h hv
    rw [updatePlayer]; simp [hu', hp', hu2, hp2, findTarget, truthy, h, hv]
  · intro h; rw [deletePlayer]; simp [hu', hp', hu2, hp2, findTarget, truthy, h]
  · intro p h hv
    rw [deletePlayer]; simp [hu', hp', hu2, hp2, findTarget, truthy, h, hv]

/-- C1, witness: the amended theorem applied on `st1` at the nonexistent
handle `bob`. -/
theorem C1_witness :
    (login st1 (some "bob") (some "x") 0).1.status = 401 ∧
    (fetchPlayer st1 none (some "bob") (some "x")).status = 404 :=
  ⟨(C1_amended_failure_kinds st1 "bob" "x" 0 (by decide) (by decide)).1.1
      (by decide),
   (C1_amended_failure_kinds st1 "bob" "x" 0 (by decide) (by decide)).2.1.1
      (by decide)⟩

/-- C2, counterexample: the claim says no component of the system persists
the plaintext password; the Unity client's local fallback record
(GameUIManager.RegisterAccount) written to a per-user JSON file stores the
typed password verbatim, not its verifiable form. -/
theorem C2_counterexample :
    (clientLocalRecord "alice" "pw1" "a@x.com" "2025-01-01T00:00:00Z").password
      = "pw1" ∧
    (clientLocalRecord "alice" "pw1" "a@x.com" "2025-01-01T00:00:00Z").password
      ≠ bhash "pw1" := by decide

/-- C2, amended: the server-side store holds the credential only in hashed
verifiable form — registration hashes the password before storing and a
credential change at the update endpoint hashes the new value before it
reaches the store — but the Unity client additionally persists the plaintext
password in its local per-user JSON record. -/
theorem C2_amended_credential_storage (st : Store) (u pw : String)
    (email : Option String) (fid : String) (hu : u ≠ "") (hp : pw ≠ "")
    (hfree : st.find? (fun q => q.username == u) = none) :
    (∃ rec : Player,
      (register st (some u) (some pw) email fid).2 = st ++ [rec] ∧
      rec.password = bhash pw ∧ rec.password ≠ pw) ∧
    (∀ (p : Player) (r : UpdateReq), truthy r.password = true →
      (applyUpdates p r).password = bhash (r.password.getD "") ∧
      (applyUpdates p r).password ≠ r.password.getD "") ∧
    (∀ user pass em t, (clientLocalRecord user pass em t).password = pass) := by
  refine ⟨?_, ?_, ?_⟩
  · refine Exists.intro
      (Player.mk fid u (bhash pw) (email.getD "") 1 0 0 0 0 none)
      ⟨?_, rfl, bhash_ne pw⟩
    rw [register]
    simp [truthy_some hu, truthy_some hp, hfree]
  · intro p r h
    rw [applyUpdates_password, if_pos h]
    exact ⟨rfl, bhash_ne _⟩
  · intro user pass em t; rfl

/-- C2, witness: the amended theorem applied on the empty store. -/
theorem C2_witness : (clientLocalRecord "w" "pw" "e" "t").password = "pw" :=
  (C2_amended_credential_storage [] "alice" "pw1" none "1" (by decide)
    (by decide) rfl).2.2 "w" "pw" "e" "t"

/-- C3: no response body contains the credential: the data objects of
register, login, fetch, update, leaderboard and the admin listing carry no
`password` key for any record, and the delete response carries no data at
all. -/
theorem C3_no_credential_in_response :
    (∀ p : Player, "password" ∉ (registerData p).map Prod.fst) ∧
    (∀ p : Player, "password" ∉ (loginData p).map Prod.fst) ∧
    (∀ p : Player, "password" ∉ (fetchData p).map Prod.fst) ∧
    (∀ p : Player, "password" ∉ (updateData p).map Prod.fst) ∧
    (∀ p : Player, "password" ∉ (leaderboardEntry p).map Prod.fst) ∧
    (∀ p : Player, "password" ∉ (adminEntry p).map Prod.fst) ∧
    (∀ (st : Store) (id username pw : Option String),
      (deletePlayer st id username pw).1.data = none) := by
  refine ⟨?_, ?_, ?_, ?_, ?_, ?_, ?_⟩
  · intro p; simp [registerData]
  · intro p; simp [loginData, registerData, jtime]
  · intro p; simp [fetchData, registerData, jtime]
  · intro p; simp [updateData, registerData]
  · intro p; simp [leaderboardEntry]
  · intro p; simp [adminEntry]
  · intro st id username pw
    rw [deletePlayer]
    split
    · rfl
    · split
      · rfl
      · split
        · rfl
        · split <;> rfl

/-- C4: registering a handle that already names a record fails with 409
Conflict and leaves the store unchanged, whatever the supplied credential;
consequently after a successful registration, a second registration of the
same handle always yields Conflict. -/
theorem C4_duplicate_register_conflict (st : Store) (u pw : String)
    (email : Option String) (fid : String) (hu : u ≠ "") (hp : pw ≠ "") :
    (∀ q, st.find? (fun x => x.username == u) = some q →
      register st (some u) (some pw) email fid = (⟨409, false, none⟩, st)) ∧
    (st.find? (fun x => x.username == u) = none →
      ∀ (pw2 : String) (email2 : Option String) (fid2 : String), pw2 ≠ "" →
        register ((register st (some u) (some pw) email fid).2)
            (some u) (some pw2) email2 fid2 =
          (⟨409, false, none⟩,
            (register st (some u) (some pw) email fid).2)) := by
  constructor
  · intro q hdup
    rw [register]
    simp [truthy_some hu, truthy_some hp, hdup]
  · intro h pw2 email2 fid2 hp2
    have hstep : (register st (some u) (some pw) email fid).2 =
        st ++ [Player.mk fid u (bhash pw) (email.getD "") 1 0 0 0 0 none] := by
      rw [register]
      simp [truthy_some hu, truthy_some hp, h]
    rw [hstep, register]
    simp [truthy_some hu, truthy_some hp2, List.find?_append, h]

/-- C4, witness: re-registering `alice` on `st1` with a different credential
yields Conflict and the unchanged store. -/
theorem C4_witness :
    register st1 (some "alice") (some "other") none "2" =
      (⟨409, false, none⟩, st1) :=
  (C4_duplicate_register_conflict st1 "alice" "other" none "2" (by decide)
    (by decide)).1 alice (by decide)

/-- C5, counterexample: the claim says the service's update applies the
floor-at-zero rule so the persisted score is never negative; an authorized
update carrying score -5 succeeds and persists score -5. -/
theorem C5_counterexample :
    (updatePlayer st1 negReq).1.status = 200 ∧
    (updatePlayer st1 negReq).2 = [{ alice with score := -5 }] ∧
    ({ alice with score := -5 } : Player).score < 0 := by decide

/-- C5, amended: the update endpoint assigns a requested score raw, with no
floor; the floor-at-zero rule is applied only client-side by the
outcome-reporting trigger (UpdatePlayerStats) before a request is built, so
a direct update request can persist a negative score. -/
theorem C5_amended_raw_score_assignment (st : Store) (r : UpdateReq)
    (p : Player) (v : Int)
    (hsel : (!(truthy r.id) && !(truthy r.username)) = false)
    (hcp : truthy r.currentPassword = true)
    (hfind : findTarget st r.id r.username = some p)
    (hauth : bverify (r.currentPassword.getD "") p.password = true)
    (hscore : r.score = some v) :
    (updatePlayer st r).1.status = 200 ∧
    (applyUpdates p r).score = v ∧
    (∀ (c : PlayerData) (won : Bool), 0 ≤ c.score →
      0 ≤ (updatePlayerStats won c).score) := by
  refine ⟨?_, ?_, ?_⟩
  · rw [updatePlayer]; simp [hsel, hcp, hfind, hauth]
  · rw [applyUpdates_score, hscore]; rfl
  · intro c won h; exact updatePlayerStats_nonneg won c h

/-- C5, witness: the amended theorem applied to the authorized request
carrying score -5 on `st1`. -/
theorem C5_witness : (applyUpdates alice negReq).score = -5 :=
  (C5_amended_raw_score_assignment st1 negReq alice (-5) (by decide)
    (by decide) (by decide) (by decide) (by decide)).2.1

/-- C6: a win increments wins and raises score by one; a loss increments
losses and lowers score by one, floored at zero; hence the score stays
non-negative after every sequence of reports, and a score clamped at 0 is
kept at 0 by further losses. -/
theorem C6_outcome_reports_clamp (c : PlayerData) :
    ((updatePlayerStats true c).wins = c.wins + 1 ∧
     (updatePlayerStats true c).score = c.score + 1 ∧
     (updatePlayerStats true c).losses = c.losses) ∧
    ((updatePlayerStats false c).losses = c.losses + 1 ∧
     (updatePlayerStats false c).score = max 0 (c.score - 1) ∧
     (updatePlayerStats false c).wins = c.wins) ∧
    (0 ≤ c.score → ∀ rs : List Bool, 0 ≤ (applyReports c rs).score) ∧
    (c.score = 0 → (updatePlayerStats false c).score = 0) := by
  refine ⟨⟨rfl, rfl, rfl⟩, ⟨rfl, rfl, rfl⟩, ?_, ?_⟩
  · intro h rs; exact applyReports_nonneg rs c h
  · intro h; simp [updatePlayerStats, h]

/-- C6, witness: three reports starting from a fresh record keep the score
non-negative. -/
theorem C6_witness :
    0 ≤ (applyReports (clientLocalRecord "c6" "p" "e" "t")
      [false, false, true]).score :=
  (C6_outcome_reports_clamp (clientLocalRecord "c6" "p" "e" "t")).2.2.1
    (by decide) [false, false, true]

/-- C7: the update is a partial update — every field not present in the
request keeps its prior value; an authorized update with an empty field set
returns the record unchanged; and with a bad credential the update still
fails 401 even though no field would change. -/
theorem C7_partial_update_frame (st : Store) (r : UpdateReq) (p : Player)
    (hsel : (!(truthy r.id) && !(truthy r.username)) = false)
    (hcp : truthy r.currentPassword = true)
    (hfind : findTarget st r.id r.username = some p) :
    ((r.level = none → (applyUpdates p r).level = p.level) ∧
     (r.experience = none → (applyUpdates p r).experience = p.experience) ∧
     (r.email = none → (applyUpdates p r).email = p.email) ∧
     (r.score = none → (applyUpdates p r).score = p.score) ∧
     (r.wins = none → (applyUpdates p r).wins = p.wins) ∧
     (r.losses = none → (applyUpdates p r).losses = p.losses) ∧
     (r.password = none → (applyUpdates p r).password = p.password)) ∧
    (r.level = none → r.experience = none → r.email = none →
     r.score = none → r.wins = none → r.losses = none → r.password = none →
     bverify (r.currentPassword.getD "") p.password = true →
     updatePlayer st r =
       (⟨200, true, some (updateData p)⟩, storeReplace st p)) ∧
    (bverify (r.currentPassword.getD "") p.password = false →
     updatePlayer st r = (⟨401, false, none⟩, st)) := by
  refine ⟨⟨?_, ?_, ?_, ?_, ?_, ?_, ?_⟩, ?_, ?_⟩
  · intro h; rw [applyUpdates_level, h]; rfl
  · intro h; rw [applyUpdates_experience, h]; rfl
  · intro h; rw [applyUpdates_email, h]; rfl
  · intro h; rw [applyUpdates_score, h]; rfl
  · intro h; rw [applyUpdates_wins, h]; rfl
  · intro h; rw [applyUpdates_losses, h]; rfl
  · intro h; rw [applyUpdates_password, h]; rfl
  · intro h1 h2 h3 h4 h5 h6 h7 hauth
    have he := applyUpdates_empty p r h1 h2 h3 h4 h5 h6 h7
    rw [updatePlayer]
    simp [hsel, hcp, hfind, hauth, he]
  · intro hauth
    rw [updatePlayer]
    simp [hsel, hcp, hfind, hauth]

/-- C7, witness: the empty-field-set update on `st1`, authorized, returns
the unchanged record. -/
theorem C7_witness :
    updatePlayer st1 emptyReq =
      (⟨200, true, some (updateData alice)⟩, storeReplace st1 alice) :=
  (C7_partial_update_frame st1 emptyReq alice (by decide) (by decide)
    (by decide)).2.1 rfl rfl rfl rfl rfl rfl rfl (by decide)

/-- C8: the leaderboard never fails; it returns at most the effective limit
of entries, the sort is descending by score with ties kept in insertion
order, a missing/non-numeric/zero/negative limit falls back to 10, and a
limit above 50 is clamped to 50. -/
theorem C8_leaderboard_policy (st : Store) (limitRaw : Option Int) :
    (leaderboard st limitRaw).1 = 200 ∧
    (leaderboard st limitRaw).2.length ≤ (effLimit limitRaw).toNat ∧
    (sortByScoreDesc st).Pairwise (fun a b => b.score ≤ a.score) ∧
    (∀ s : Int, (sortByScoreDesc st).filter (fun q => q.score == s) =
      st.filter (fun q => q.score == s)) ∧
    effLimit none = 10 ∧
    (∀ v : Int, v ≤ 0 → effLimit (some v) = 10) ∧
    (∀ v : Int, 0 < v → v ≤ 50 → effLimit (some v) = v) ∧
    (∀ v : Int, 50 < v → effLimit (some v) = 50) := by
  refine ⟨rfl, ?_, sortByScoreDesc_sorted st,
    fun s => filter_sortByScoreDesc s st, rfl, ?_, ?_, ?_⟩
  · rw [leaderboard, leaderboardData]
    simp [List.length_take]
  · intro v hv; rw [effLimit, if_neg (by omega)]
  · intro v h1 h2; rw [effLimit, if_pos h1]; exact min_eq_left h2
  · intro v h; rw [effLimit, if_pos (by omega)]; exact min_eq_right (by omega)

/-- C8, witness: on `st1` with limit 60 the response is a 200 and the limit
is clamped to 50. -/
theorem C8_witness :
    (leaderboard st1 (some 60)).1 = 200 ∧ effLimit (some 60) = 50 :=
  ⟨(C8_leaderboard_policy st1 (some 60)).1,
   (C8_leaderboard_policy st1 (some 60)).2.2.2.2.2.2.2 60 (by decide)⟩

/-- C9: the derived win rate is 0 when no games were played and otherwise
equals 100 * wins / (wins + losses); wins=3, losses=1 gives 75 and
wins=0, losses=0 gives 0; and no `winRate` field is among the persisted
fields of either the client JSON record or the server-side canonical
record — it is recomputed at read time. -/
theorem C9_winRate_recomputed :
    (∀ pd : PlayerData, pd.wins + pd.losses = 0 → ComputeWinRate pd = 0) ∧
    (∀ pd : PlayerData, pd.wins + pd.losses ≠ 0 →
      ComputeWinRate pd =
        100 * (pd.wins : ℚ) / ((pd.wins : ℚ) + (pd.losses : ℚ))) ∧
    ComputeWinRate
      { clientLocalRecord "a" "" "" "" with wins := 3, losses := 1 } = 75 ∧
    ComputeWinRate (clientLocalRecord "a" "" "" "") = 0 ∧
    "winRate" ∉ playerDataJsonKeys ∧ "winRate" ∉ serverRecordKeys := by
  refine ⟨?_, ?_, ?_, ?_, by decide, by decide⟩
  · intro pd h
    simp only [ComputeWinRate]
    rw [if_pos h]
  · intro pd h
    simp only [ComputeWinRate]
    rw [if_neg h]
    push_cast
    ring
  · norm_num [ComputeWinRate, clientLocalRecord]
  · norm_num [ComputeWinRate, clientLocalRecord]

/-- C9, witness: the zero-games case applied to a fresh client record. -/
theorem C9_witness : ComputeWinRate (clientLocalRecord "w9" "x" "y" "z") = 0 :=
  C9_winRate_recomputed.1 (clientLocalRecord "w9" "x" "y" "z") (by decide)

/-- C10: at the update endpoint an empty-string new password is treated as
absent — only a truthy password triggers re-hashing, so the stored
credential stays unchanged and can never be set from the empty string —
while an email present as the empty string is applied; the success branch
persists exactly `applyUpdates`. -/
theorem C10_empty_password_ignored (st : Store) (r : UpdateReq) (p : Player)
    (hsel : (!(truthy r.id) && !(truthy r.username)) = false)
    (hcp : truthy r.currentPassword = true)
    (hfind : findTarget st r.id r.username = some p)
    (hauth : bverify (r.currentPassword.getD "") p.password = true) :
    (r.password = some "" → (applyUpdates p r).password = p.password) ∧
    (r.email = some "" → (applyUpdates p r).email = "") ∧
    updatePlayer st r =
      (⟨200, true, some (updateData (applyUpdates p r))⟩,
        storeReplace st (applyUpdates p r)) := by
  refine ⟨?_, ?_, ?_⟩
  · intro h; rw [applyUpdates_password, h]; rfl
  · intro h; rw [applyUpdates_email, h]; rfl
  · rw [updatePlayer]; simp [hsel, hcp, hfind, hauth]

/-- C10, witness: the request with empty-string password and email on `st1`
leaves the stored credential unchanged. -/
theorem C10_witness :
    (applyUpdates alice emptyPwReq).password = alice.password :=
  (C10_empty_password_ignored st1 emptyPwReq alice (by decide) (by decide)
    (by decide) (by decide)).1 rfl

end GameBackend
